import Mathlib

/-!
Verification of the SafeBites intent-driven semantic retrieval pipeline
(backend/app of the SafeBites repository).

The Python source is shallowly embedded: pure data flow becomes Lean
functions, Python dicts become ordered association lists (`dictGet`,
`dictInsert` mirror `d[k]`/`d.get(k)` and `d[k] = v` insertion-order
semantics), raised exceptions become `Except String`, and JSON values
parsed by `json.loads` become the `Json` inductive.  External
collaborators (the OpenAI/Gemini oracle calls, the FAISS vector store,
the Mongo dish catalog, numpy cosine similarity and text embeddings)
are parameters of the embedded functions, exactly at the call sites
where the source invokes them.
-/

namespace SafeBites

/-- JSON values as produced by json.loads: null, booleans, numbers,
strings, arrays and (insertion-ordered) objects. -/
inductive Json where
  | null
  | bool (b : Bool)
  | num (q : ℚ)
  | str (s : String)
  | arr (xs : List Json)
  | obj (kvs : List (String × Json))

/-- Embedding vectors (numpy float arrays) are modelled as rational
vectors; all vector arithmetic the source performs is exact. -/
abbrev Vec := List ℚ

/-- A dish document from the Mongo dishes collection.  The pipeline
code under verification reads only the _id field (modelled as id);
the name field is carried because the logging code reads it.  The
remaining catalog fields (description, price, ingredients, ...) are
never read by the verified code paths and are omitted. -/
structure Dish where
  id : String
  name : String
  deriving DecidableEq, Repr

/-- A retrieval hit as built by search_dishes in
backend/app/services/faiss_service.py: the catalog dish, the FAISS
similarity score, the raw index embedding, and the
centroid_similarity field that refine_with_centroid later sets. -/
structure DishHit where
  dish : Dish
  score : ℚ
  embedding : Vec
  centroid_similarity : Option ℚ := none
  deriving DecidableEq, Repr

/-- Python dict read d.get(k): first entry with the given key. -/
def dictGet (k : String) : List (String × α) → Option α
  | [] => none
  | (k1, v) :: t => if k1 = k then some v else dictGet k t

/-- Python dict write d[k] = v: replace the value in place if the key
exists, otherwise append a new entry (insertion-order semantics). -/
def dictInsert (k : String) (v : α) : List (String × α) → List (String × α)
  | [] => [(k, v)]
  | (k1, v1) :: t => if k1 = k then (k, v) :: t else (k1, v1) :: dictInsert k v t

/-- Pointwise vector addition (numpy +). -/
def vecAdd (a b : Vec) : Vec := List.zipWith (· + ·) a b

/-- Scalar multiple of a vector. -/
def vecScale (c : ℚ) (v : Vec) : Vec := v.map (fun x => c * x)

/-- np.mean(vs, axis=0).  For a nonempty list this is the pointwise
arithmetic mean.  For the empty list numpy emits a RuntimeWarning and
yields a NaN scalar; that invalid centroid is modelled as none (its
reshape(1, -1) is a 1-dimensional row that can never match the
1536-dimensional dish embeddings, so any later cosine_similarity call
on it raises). -/
def npMeanAxis0 : List Vec → Option Vec
  | [] => none
  | v :: t => some (vecScale (1 / ((t.length + 1 : ℕ) : ℚ)) (t.foldl vecAdd v))

namespace FaissService

/- Embedding of backend/app/services/faiss_service.py.  The module
level llm / embeddings / FAISS store / Mongo collection are external
collaborators and appear as function parameters. -/

/-- Intent Expander, faiss_service.extract_query_intent.  The LLM call
produces a text response; parse models json.loads, returning none
when the text is not valid JSON (the except branch).  On parse
failure the source falls back to the dict
positive = [query], negative = []. -/
def extract_query_intent (parse : String → Option Json)
    (query response : String) : Json :=
  match parse response with
  | some j => j
  | none => Json.obj [("positive", Json.arr [Json.str query]),
                      ("negative", Json.arr [])]

/-- The parsed, well-shaped intent expansion consumed by
semantic_retrieve_with_negation through intents["positive"] and
intents["negative"]. -/
structure QueryIntents where
  positive : List String
  negative : List String

/-- The dedup loop of semantic_retrieve_with_negation (seen = set();
append a hit only when its dish id is not yet in seen). -/
def dedupSeen : List DishHit → List String → List DishHit
  | [], _ => []
  | h :: t, seen =>
      if h.dish.id ∈ seen then dedupSeen t seen
      else h :: dedupSeen t (h.dish.id :: seen)

/-- Negation and Dedup step, lines 152-160 of faiss_service.py: build
neg_ids from the negative hits, keep the positive hits whose dish id
is not negative, then deduplicate by dish id with a seen set. -/
def neg_dedup (pos_hits neg_hits : List DishHit) : List DishHit :=
  let neg_ids := neg_hits.map (fun h => h.dish.id)
  let filtered_dishes := pos_hits.filter (fun h => decide (h.dish.id ∉ neg_ids))
  dedupSeen filtered_dishes []

/-- Reference function for the Negation and Dedup step, written from
the words of the spec: deduplicate by dish id preserving
first-occurrence order (a kept hit erases every later hit that has
the same dish id). -/
def dedup_first_spec : List DishHit → List DishHit
  | [] => []
  | h :: t => h :: dedup_first_spec (t.filter (fun x => decide (x.dish.id ≠ h.dish.id)))
  termination_by l => l.length
  decreasing_by
    simpa using Nat.lt_succ_of_le (List.length_filter_le _ t)

/-- Reference Negation and Dedup, from the words of the spec: retain
positive hits whose dish id is not among the negative dish ids, then
deduplicate keeping first occurrences. -/
def neg_dedup_spec (pos_hits neg_hits : List DishHit) : List DishHit :=
  let neg_ids := neg_hits.map (fun h => h.dish.id)
  dedup_first_spec (pos_hits.filter (fun h => decide (h.dish.id ∉ neg_ids)))

/-- Sort key used by refined.sort(key=..., reverse=True); every hit in
the refined list has centroid_similarity set, so the default value is
never read there. -/
def simKey (h : DishHit) : ℚ := h.centroid_similarity.getD 0

/-- The per-hit loop of refine_with_centroid: look the dish embedding
up (hits without one are skipped silently), compute the cosine
similarity against the centroid, and keep the hit with
centroid_similarity set when the similarity is strictly above the
threshold.  A none centroid is the NaN produced by the mean of an
empty positive-intent list: the cosine_similarity call on it raises
(sklearn rejects the 1-column NaN row against a wider embedding),
modelled as the error branch. -/
def refineLoop (cos : Vec → Vec → ℚ) (threshold : ℚ) (centroidOpt : Option Vec)
    (dish_embeddings : List (String × Vec)) : List DishHit → Except String (List DishHit)
  | [] => .ok []
  | h :: t =>
    match dictGet h.dish.id dish_embeddings with
    | none => refineLoop cos threshold centroidOpt dish_embeddings t
    | some emb =>
      match centroidOpt with
      | none => .error "ValueError: Incompatible dimension for X and Y matrices"
      | some centroid =>
        let sim := cos centroid emb
        if threshold < sim then
          (refineLoop cos threshold centroidOpt dish_embeddings t).map
            (fun r => { h with centroid_similarity := some sim } :: r)
        else refineLoop cos threshold centroidOpt dish_embeddings t

/-- Centroid Re-ranker, faiss_service.refine_with_centroid: embed each
positive intent, take the arithmetic mean as centroid, keep hits with
cosine similarity strictly above 0.30, attach centroid_similarity,
and sort descending (Python list.sort is a stable merge sort,
modelled by List.mergeSort).  cos and embed stand for
sklearn.cosine_similarity and embeddings.embed_query.  Note the
source has no guard for an empty positive_intents list. -/
def refine_with_centroid (cos : Vec → Vec → ℚ) (embed : String → Vec)
    (dish_hits : List DishHit) (positive_intents : List String)
    (dish_embeddings : List (String × Vec)) : Except String (List DishHit) :=
  let centroidOpt := npMeanAxis0 (positive_intents.map embed)
  (refineLoop cos (3/10) centroidOpt dish_embeddings dish_hits).map
    (fun refined => refined.mergeSort (fun a b => decide (simKey b ≤ simKey a)))

/-- Retrieval with negation, faiss_service.semantic_retrieve_with_negation.
search stands for search_dishes(., restaurant_id) (FAISS plus catalog,
external); intents is the parsed output of the extract_query_intent
oracle call.  Positive and negative hits are the concatenations of
the per-term searches; then the Negation and Dedup step runs, the
id-to-embedding map is built from the surviving hits, and the
centroid re-ranker produces the result.  The trailing log-file block
of the source only performs I/O inside its own try/except and does
not affect the returned value. -/
def semantic_retrieve_with_negation (search : String → List DishHit)
    (cos : Vec → Vec → ℚ) (embed : String → Vec)
    (intents : QueryIntents) : Except String (List DishHit) :=
  let pos_hits := intents.positive.flatMap search
  let neg_hits := intents.negative.flatMap search
  let unique_filtered_dishes := neg_dedup pos_hits neg_hits
  let dish_embeddings := unique_filtered_dishes.map (fun h => (h.dish.id, h.embedding))
  refine_with_centroid cos embed unique_filtered_dishes intents.positive dish_embeddings

end FaissService

namespace FaissIndexUtil

/- Embedding of the active (uncommented, Gemini) revision of
backend/app/utils/faiss_index.py, whose refine_with_centroid guards
the empty positive-intent list and uses the 0.45 threshold. -/

/-- Centroid Re-ranker of utils/faiss_index.py: when positive_intents
is empty the deduplicated input is returned unchanged; otherwise the
same loop as the services revision with threshold 0.45. -/
def refine_with_centroid (cos : Vec → Vec → ℚ) (embed : String → Vec)
    (dish_hits : List DishHit) (positive_intents : List String)
    (dish_embeddings : List (String × Vec)) : Except String (List DishHit) :=
  if positive_intents.isEmpty then .ok dish_hits
  else
    let centroidOpt := npMeanAxis0 (positive_intents.map embed)
    (FaissService.refineLoop cos (45/100) centroidOpt dish_embeddings dish_hits).map
      (fun refined => refined.mergeSort (fun a b => decide (FaissService.simKey b ≤ FaissService.simKey a)))

end FaissIndexUtil

namespace IntentService

/- Embedding of backend/app/services/intent_service.py. -/

/-- One element of the results list built by the Query Decomposer:
the dict with keys type and query.  The query value is the raw JSON
element the source appends without any type check. -/
structure IntentItem where
  type : String
  query : Json

/-- Python iteration semantics for the inner loop (for q in queries):
an array iterates its elements, a string iterates its characters, a
dict iterates its keys; null, booleans and numbers raise TypeError. -/
def pyIter : Json → Except String (List Json)
  | .arr xs => .ok xs
  | .str s => .ok (s.data.map (fun c => Json.str (String.mk [c])))
  | .obj kvs => .ok (kvs.map (fun kv => Json.str kv.1))
  | _ => .error "TypeError: object is not iterable"

/-- The flattening loop of intent_service.extract_query_intent:
for intent_type, queries in data.items(): for q in queries: append
the dict with type = intent_type and query = q. -/
def flattenKvs : List (String × Json) → Except String (List IntentItem)
  | [] => .ok []
  | (k, v) :: t =>
    match pyIter v with
    | .error e => .error e
    | .ok qs =>
      (flattenKvs t).map (fun rest => qs.map (fun q => IntentItem.mk k q) ++ rest)

/-- Query Decomposer, intent_service.extract_query_intent.  The LLM
response is parsed by json.loads (parse; none on failure); the bare
except replaces an unparseable response by the dict
intents = ["irrelevant"].  The flattening loop then calls
data.items(), which raises AttributeError when the parsed JSON is not
an object, and iterates each value.  The function returns the results
list (the source wraps it as the value of an intents key). -/
def extract_query_intent (parse : String → Option Json)
    (query response : String) : Except String (List IntentItem) :=
  let data := (parse response).getD (Json.obj [("intents", Json.arr [Json.str "irrelevant"])])
  match data with
  | .obj kvs => flattenKvs kvs
  | _ => .error "AttributeError: object has no attribute items"

end IntentService

namespace RetrievalService

/- Embedding of backend/app/services/retrieval_service.py. -/

/-- The DishData record of models/dish_info_model.py (HEAD side of
the unresolved merge conflict in that file, which is the shape the
retrieval service constructs); Any-typed fields carry Json. -/
structure DishData where
  dish_id : String
  dish_name : String := "N/A"
  description : Option String := none
  price : Option Json := none
  ingredients : List String := []
  serving_size : Option String := none
  availibility : Option String := none
  allergens : List String := []
  nutrition_facts : List (String × Json) := []

/-- The body of the try block that get_menu_items runs for one
menu_search sub-query: retrieve hits (semantic_retrieve_with_negation,
which can raise), convert each hit into a DishData (the source
comprehension accesses hit.dish attributes and can raise), and unless
the list is empty (the continue branch, which skips the filters)
apply apply_filters and validate_retrieved_dishes from
restaurant_service (external collaborators that can raise). -/
def menu_pipeline (retrieve : String → Except String (List DishHit))
    (convert : DishHit → Except String DishData)
    (apply_filters validate : String → List DishData → Except String (List DishData))
    (q : String) : Except String (List DishData) := do
  let hits ← retrieve q
  let dish_results ← hits.mapM convert
  if dish_results.isEmpty then
    pure []
  else do
    let dish_results ← apply_filters q dish_results
    validate q dish_results

/-- The except branch of get_menu_items: any exception in the try
block is logged and the result for that sub-query becomes []. -/
def recover : Except String (List DishData) → List DishData
  | .ok ds => ds
  | .error _ => []

/-- The loop of get_menu_items, writing results[q] for each q. -/
def menuGo (retrieve : String → Except String (List DishHit))
    (convert : DishHit → Except String DishData)
    (apply_filters validate : String → List DishData → Except String (List DishData)) :
    List String → List (String × List DishData) → List (String × List DishData)
  | [], results => results
  | q :: t, results =>
      menuGo retrieve convert apply_filters validate t
        (dictInsert q (recover (menu_pipeline retrieve convert apply_filters validate q)) results)

/-- retrieval_service.get_menu_items: iterate the menu_search
sub-queries of the state, run the pipeline for each inside
try/except, and record a per-sub-query entry in the results dict
(the returned value of the menu_results key). -/
def get_menu_items (retrieve : String → Except String (List DishHit))
    (convert : DishHit → Except String DishData)
    (apply_filters validate : String → List DishData → Except String (List DishData))
    (menu_search_queries : List String) : List (String × List DishData) :=
  menuGo retrieve convert apply_filters validate menu_search_queries []

end RetrievalService

namespace DishInfoService

/- Embedding of backend/app/services/dish_info_service.py. -/

/-- Python str.strip(): remove leading and trailing whitespace. -/
def pyStrip (s : String) : String :=
  String.mk (((s.data.dropWhile Char.isWhitespace).reverse.dropWhile Char.isWhitespace).reverse)

/-- The loop of dish_info_service.get_dish_info.  Parameters stand for
the stages, each of which can raise (there is no try/except around
the loop body, so an error aborts the whole call):
derive models derive_dish_info_intent followed by the .get("type")
read; handle_general models handle_general_knowledge;
food_path models the menu-dependent branch (handle_food_item_query,
apply_filters, validate_retrieved_dishes, the context build and the
final answer call with its internal parse fallback).  When the
derived type is general_knowledge the source stores the answer and
returns the accumulated results immediately, dropping every
remaining sub-query of the bucket. -/
def infoGo (derive : String → Except String (Option String))
    (handle_general : String → Except String Json)
    (food_path : String → Except String Json) :
    List String → List (String × Json) → Except String (List (String × Json))
  | [], results => .ok results
  | q :: t, results =>
    let q := pyStrip q
    match derive q with
    | .error e => .error e
    | .ok ty =>
      if ty = some "general_knowledge" then
        match handle_general q with
        | .error e => .error e
        | .ok a => .ok (dictInsert q a results)
      else
        match food_path q with
        | .error e => .error e
        | .ok refined => infoGo derive handle_general food_path t (dictInsert q refined results)

/-- dish_info_service.get_dish_info over the dish_info sub-queries of
the state (the returned value of the info_results key). -/
def get_dish_info (derive : String → Except String (Option String))
    (handle_general : String → Except String Json)
    (food_path : String → Except String Json)
    (dish_info_queries : List String) : Except String (List (String × Json)) :=
  infoGo derive handle_general food_path dish_info_queries []

end DishInfoService

/-- The ChatState of backend/app/flow/state.py (the docs side of the
unresolved merge conflict in that file, where menu_results and
info_results are plain per-sub-query dicts; both conflict sides agree
on every field the verified functions read).  The intents, context
and data fields are not read by any verified function and are
omitted; Optional dict fields are Option over ordered association
lists. -/
structure ChatState where
  user_id : String
  session_id : String
  restaurant_id : String
  query : String
  query_parts : Option (List (String × List String)) := none
  menu_results : Option (List (String × List RetrievalService.DishData)) := none
  info_results : Option (List (String × Json)) := none
  response : String := ""
  status : String := "pending"
  timestamp : String := ""

namespace Flow

/- Embedding of backend/app/flow/state_store.py. -/

/-- The in-memory session store: a dict from session id to the list
of ChatState snapshots of that session. -/
structure StateStore where
  sessions : List (String × List ChatState) := []

/-- StateStore.get: self.sessions.get(session_id), None when the
session id was never written. -/
def StateStore.get (store : StateStore) (session_id : String) : Option (List ChatState) :=
  dictGet session_id store.sessions

/-- The effect of self.sessions.setdefault(state.session_id, []).append(state)
on the underlying dict: append to the existing history of that
session id, or create a fresh singleton history. -/
def saveGo (s : ChatState) : List (String × List ChatState) → List (String × List ChatState)
  | [] => [(s.session_id, [s])]
  | (k, l) :: t =>
      if k = s.session_id then (k, l ++ [s]) :: t else (k, l) :: saveGo s t

/-- StateStore.save. -/
def StateStore.save (store : StateStore) (s : ChatState) : StateStore :=
  ⟨saveGo s store.sessions⟩

end Flow

namespace ResponseSynthesizer

/- Embedding of backend/app/services/response_synthesizer_tool.py
(the docs side of its unresolved merge conflict; the entry and status
logic below is identical on both sides).  The QueryResponse,
InfoResult and FinalResponse classes are imported from
models/responder_model.py, which does not define them: they are
missing from the source and are modelled from the spec and from the
constructor calls in this file. -/

/-- Modelled from the spec: the DishResult of the Unified Response
(models/responder_model.py defines this one: dish id, name, optional
price and metadata). -/
structure DishResult where
  dish_id : String
  name : String
  price : Option Json := none
  metadata : Option Json := none

/-- Modelled from the spec: the InfoResult class is imported by the
response synthesizer but missing from models/responder_model.py; per
the spec an Info Answer is the structured oracle answer, modelled as
its JSON field map. -/
structure InfoResult where
  fields : List (String × Json)

/-- The result payload of one response entry: a dish list for
menu_search, an info answer for dish_info, or the fixed message dict
for the gibberish bucket. -/
inductive RespResult where
  | menu (dishes : List DishResult)
  | info (i : InfoResult)
  | msg (message : String)

/-- Modelled from the spec: the QueryResponse class is missing from
models/responder_model.py; its constructor calls pass query, type and
result. -/
structure QueryResponse where
  query : String
  type : String
  result : RespResult

/-- Modelled from the spec: the FinalResponse class (the Unified
Response) is missing from models/responder_model.py; its constructor
call passes the identifiers, the original query, the responses list
and the overall status. -/
structure FinalResponse where
  user_id : String
  session_id : String
  restaurant_id : String
  original_query : String
  responses : List QueryResponse
  status : String

/-- Python truthiness of an Optional dict field: None and the empty
dict are falsy. -/
def pyTruthy (o : Option (List (String × α))) : Bool :=
  match o with
  | none => false
  | some l => !l.isEmpty

/-- The menu_search entries: one QueryResponse per menu_results item,
converting each dish through DishResult(**dish) (convertDish, which
can raise a validation error). -/
def menuResponses (convertDish : RetrievalService.DishData → Except String DishResult)
    (state : ChatState) : Except String (List QueryResponse) :=
  if pyTruthy state.menu_results then
    (state.menu_results.getD []).mapM (fun kv => do
      let ds ← kv.2.mapM convertDish
      pure (QueryResponse.mk kv.1 "menu_search" (RespResult.menu ds)))
  else pure []

/-- The dish_info entries: one QueryResponse per info_results item,
converting through InfoResult(**info) (convertInfo, which can raise). -/
def infoResponses (convertInfo : Json → Except String InfoResult)
    (state : ChatState) : Except String (List QueryResponse) :=
  if pyTruthy state.info_results then
    (state.info_results.getD []).mapM (fun kv => do
      let i ← convertInfo kv.2
      pure (QueryResponse.mk kv.1 "dish_info" (RespResult.info i)))
  else pure []

/-- The third block of format_final_response: it reads the gibberish
key of query_parts (note: the Query Decomposer produces the buckets
menu_search, dish_info and irrelevant; no producer writes a gibberish
key) and emits the fixed could-not-understand message per entry. -/
def gibberishResponses (state : ChatState) : List QueryResponse :=
  match state.query_parts with
  | none => []
  | some parts =>
    match dictGet "gibberish" parts with
    | none => []
    | some qs =>
      if qs.isEmpty then []
      else qs.map (fun q =>
        QueryResponse.mk q "gibberish"
          (RespResult.msg "Sorry, I couldn\x27t understand your query.Pleas rephrase it."))

/-- response_synthesizer_tool.format_final_response: build the
menu_search, dish_info and gibberish entries in order and return the
FinalResponse whose status is success when the responses list is
non-empty and failed otherwise. -/
def format_final_response (convertDish : RetrievalService.DishData → Except String DishResult)
    (convertInfo : Json → Except String InfoResult)
    (state : ChatState) : Except String FinalResponse :=
  match menuResponses convertDish state with
  | .error e => .error e
  | .ok menuRs =>
    match infoResponses convertInfo state with
    | .error e => .error e
    | .ok infoRs =>
      let responses := menuRs ++ infoRs ++ gibberishResponses state
      .ok (FinalResponse.mk state.user_id state.session_id state.restaurant_id state.query
            responses (if responses.isEmpty then "failed" else "success"))

end ResponseSynthesizer

/-! Concrete collaborators, hits and states used by the witnesses and
counterexamples (the scenario of spec section 8.6: pasta dishes
without meatballs). -/

/-- Penne Arrabbiata, matching only positive terms. -/
def dishA : Dish := ⟨"dish_2", "Penne Arrabbiata"⟩

/-- Spaghetti and Meatballs, matching a positive and a negative term. -/
def dishB : Dish := ⟨"dish_1", "Spaghetti and Meatballs"⟩

/-- Hit for dishA. -/
def hitA : DishHit := { dish := dishA, score := 9/10, embedding := [1, 0] }

/-- Hit for dishB. -/
def hitB : DishHit := { dish := dishB, score := 8/10, embedding := [0, 1] }

/-- HitA after the re-ranker attached its centroid similarity. -/
def hitARefined : DishHit :=
  { dish := dishA, score := 9/10, embedding := [1, 0], centroid_similarity := some 1 }

/-- A concrete search collaborator: pasta retrieves both dishes,
meatballs retrieves only the meatball dish. -/
def search1 : String → List DishHit := fun t =>
  if t = "pasta" then [hitA, hitB]
  else if t = "meatballs" then [hitB]
  else []

/-- Expanded intents for the scenario query. -/
def intents1 : FaissService.QueryIntents := ⟨["pasta"], ["meatballs"]⟩

/-- A concrete cosine-similarity collaborator. -/
def cos1 : Vec → Vec → ℚ := fun _ _ => 1

/-- A concrete query-embedding collaborator. -/
def embed1 : String → Vec := fun _ => [1, 0]

/-- A json.loads model that always fails to parse. -/
def parseNone : String → Option Json := fun _ => none

/-- A retrieval stage that raises (a vector-index timeout). -/
def retrieveErr : String → Except String (List DishHit) := fun _ => .error "timeout"

/-- A hit-to-DishData conversion that always succeeds. -/
def convertOk : DishHit → Except String RetrievalService.DishData := fun h =>
  .ok { dish_id := h.dish.id, dish_name := h.dish.name }

/-- A filter stage that keeps everything. -/
def filtersOk : String → List RetrievalService.DishData → Except String (List RetrievalService.DishData) :=
  fun _ ds => .ok ds

/-- A validation stage that keeps everything. -/
def validateOk : String → List RetrievalService.DishData → Except String (List RetrievalService.DishData) :=
  fun _ ds => .ok ds

/-- A derive_dish_info_intent stage that raises (oracle timeout). -/
def deriveErr : String → Except String (Option String) := fun _ => .error "timeout"

/-- A general-knowledge answer stage that succeeds. -/
def generalOk : String → Except String Json := fun _ => .ok Json.null

/-- A menu-dependent answer stage that succeeds. -/
def foodOk : String → Except String Json := fun _ => .ok Json.null

/-- A DishResult conversion that always succeeds. -/
def convertDishOk : RetrievalService.DishData → Except String ResponseSynthesizer.DishResult :=
  fun d => .ok { dish_id := d.dish_id, name := d.dish_name }

/-- An InfoResult conversion that always succeeds. -/
def convertInfoOk : Json → Except String ResponseSynthesizer.InfoResult :=
  fun j => .ok ⟨[("answer", j)]⟩

/-- A completed state whose only sub-query got an empty result list. -/
def stateEmptyResult : ChatState :=
  { user_id := "u1", session_id := "s1", restaurant_id := "r1",
    query := "find me pasta",
    menu_results := some [("find me pasta", [])] }

/-- The response the synthesizer builds for stateEmptyResult. -/
def frEmptyResult : ResponseSynthesizer.FinalResponse :=
  { user_id := "u1", session_id := "s1", restaurant_id := "r1",
    original_query := "find me pasta",
    responses := [⟨"find me pasta", "menu_search", ResponseSynthesizer.RespResult.menu []⟩],
    status := "success" }

/-- A completed state whose decomposition put one sub-query in the
irrelevant bucket. -/
def stateIrrelevant : ChatState :=
  { user_id := "u1", session_id := "s1", restaurant_id := "r1",
    query := "Tell me a joke",
    query_parts := some [("irrelevant", ["Tell me a joke"])] }

/-- The response the synthesizer builds for stateIrrelevant: no entry
at all for the irrelevant sub-query. -/
def frIrrelevant : ResponseSynthesizer.FinalResponse :=
  { user_id := "u1", session_id := "s1", restaurant_id := "r1",
    original_query := "Tell me a joke",
    responses := [], status := "failed" }

/-- A concrete chat state snapshot for the state-store witness. -/
def stateSnap : ChatState :=
  { user_id := "u1", session_id := "sess_1", restaurant_id := "r1", query := "hi" }

/-! Helper lemmas. -/

/-- The seen-set dedup loop equals the spec-style first-occurrence
dedup of the sub-list of elements whose id is not already seen. -/
lemma dedupSeen_eq_spec (l : List DishHit) :
    ∀ seen : List String,
      FaissService.dedupSeen l seen
        = FaissService.dedup_first_spec (l.filter (fun x => decide (x.dish.id ∉ seen))) := by
  induction l with
  | nil => intro seen; simp [FaissService.dedupSeen, FaissService.dedup_first_spec]
  | cons h t ih =>
    intro seen
    by_cases hmem : h.dish.id ∈ seen
    · simp [FaissService.dedupSeen, hmem, List.filter_cons, ih seen]
    · have hfilter :
          (t.filter (fun x => decide (x.dish.id ∉ seen))).filter
              (fun x => decide (x.dish.id ≠ h.dish.id))
            = t.filter (fun x => decide (x.dish.id ∉ h.dish.id :: seen)) := by
        rw [List.filter_filter]
        apply List.filter_congr
        intro x _
        by_cases h1 : x.dish.id = h.dish.id <;> by_cases h2 : x.dish.id ∈ seen <;>
          simp [h1, h2]
      have hstep : FaissService.dedupSeen (h :: t) seen
          = h :: FaissService.dedupSeen t (h.dish.id :: seen) := by
        simp [FaissService.dedupSeen, hmem]
      have hfc : (h :: t).filter (fun x => decide (x.dish.id ∉ seen))
          = h :: t.filter (fun x => decide (x.dish.id ∉ seen)) := by
        simp [hmem]
      have hspec : FaissService.dedup_first_spec
            (h :: t.filter (fun x => decide (x.dish.id ∉ seen)))
          = h :: FaissService.dedup_first_spec
              ((t.filter (fun x => decide (x.dish.id ∉ seen))).filter
                (fun x => decide (x.dish.id ≠ h.dish.id))) := by
        simp [FaissService.dedup_first_spec]
      rw [hstep, hfc, hspec, hfilter, ih (h.dish.id :: seen)]

/-- Every element the dedup loop keeps comes from its input list. -/
lemma dedupSeen_subset (l : List DishHit) :
    ∀ seen : List String, ∀ h ∈ FaissService.dedupSeen l seen, h ∈ l := by
  induction l with
  | nil => intro seen h hh; simp [FaissService.dedupSeen] at hh
  | cons x t ih =>
    intro seen h hh
    by_cases hmem : x.dish.id ∈ seen
    · simp only [FaissService.dedupSeen, if_pos hmem] at hh
      exact List.mem_cons_of_mem _ (ih seen h hh)
    · simp only [FaissService.dedupSeen, if_neg hmem, List.mem_cons] at hh
      rcases hh with hh | hh
      · exact hh ▸ List.mem_cons_self _ _
      · exact List.mem_cons_of_mem _ (ih _ h hh)

/-- The dedup loop emits no dish id twice and none from the seen set. -/
lemma dedupSeen_nodup (l : List DishHit) :
    ∀ seen : List String,
      ((FaissService.dedupSeen l seen).map (fun h => h.dish.id)).Nodup
        ∧ ∀ h ∈ FaissService.dedupSeen l seen, h.dish.id ∉ seen := by
  induction l with
  | nil => intro seen; simp [FaissService.dedupSeen]
  | cons x t ih =>
    intro seen
    by_cases hmem : x.dish.id ∈ seen
    · simpa [FaissService.dedupSeen, hmem] using ih seen
    · have ih2 := ih (x.dish.id :: seen)
      constructor
      · simp only [FaissService.dedupSeen, if_neg hmem, List.map_cons, List.nodup_cons]
        refine ⟨?_, ih2.1⟩
        intro hx
        rcases List.mem_map.mp hx with ⟨y, hy, hid⟩
        exact (ih2.2 y hy) (by simp [hid])
      · intro h hh
        simp only [FaissService.dedupSeen, if_neg hmem, List.mem_cons] at hh
        rcases hh with hh | hh
        · exact hh ▸ hmem
        · have := ih2.2 h hh
          intro hc
          exact this (List.mem_cons_of_mem _ hc)

/-- Properties of every hit the refine loop keeps: its similarity was
set strictly above the threshold, and it is one of the input hits
with centroid_similarity updated. -/
lemma refineLoop_ok_mem (cos : Vec → Vec → ℚ) (thr : ℚ) (c : Option Vec)
    (embs : List (String × Vec)) (l : List DishHit) :
    ∀ r : List DishHit, FaissService.refineLoop cos thr c embs l = .ok r →
      ∀ h ∈ r, (∃ s, h.centroid_similarity = some s ∧ thr < s)
        ∧ ∃ h0, h0 ∈ l ∧ h0.dish = h.dish := by
  induction l with
  | nil =>
    intro r hr
    simp only [FaissService.refineLoop] at hr
    cases hr
    intro h hh
    simp at hh
  | cons x t ih =>
    intro r hr
    simp only [FaissService.refineLoop] at hr
    cases hg : dictGet x.dish.id embs with
    | none =>
      rw [hg] at hr
      intro h hh
      rcases ih r hr h hh with ⟨hs, h0, h0m, h0d⟩
      exact ⟨hs, h0, List.mem_cons_of_mem _ h0m, h0d⟩
    | some emb =>
      rw [hg] at hr
      cases c with
      | none => simp at hr
      | some centroid =>
        simp only at hr
        by_cases hlt : thr < cos centroid emb
        · rw [if_pos hlt] at hr
          cases hrec : FaissService.refineLoop cos thr (some centroid) embs t with
          | error e => rw [hrec] at hr; simp [Except.map] at hr
          | ok r0 =>
            rw [hrec] at hr
            simp only [Except.map] at hr
            cases hr
            intro h hh
            rcases List.mem_cons.mp hh with hh | hh
            · subst hh
              exact ⟨⟨cos centroid emb, rfl, hlt⟩, x, List.mem_cons_self _ _, rfl⟩
            · rcases ih r0 hrec h hh with ⟨hs, h0, h0m, h0d⟩
              exact ⟨hs, h0, List.mem_cons_of_mem _ h0m, h0d⟩
        · rw [if_neg hlt] at hr
          intro h hh
          rcases ih r hr h hh with ⟨hs, h0, h0m, h0d⟩
          exact ⟨hs, h0, List.mem_cons_of_mem _ h0m, h0d⟩

/-- Reading a key just written returns the written value. -/
lemma dictGet_insert_self (k : String) (v : α) (d : List (String × α)) :
    dictGet k (dictInsert k v d) = some v := by
  induction d with
  | nil => simp [dictGet, dictInsert]
  | cons e t ih =>
    by_cases he : e.1 = k
    · simp [dictGet, dictInsert, he]
    · simp [dictGet, dictInsert, he, ih]

/-- The re-ranker keeps only hits with similarity set above the 0.30
threshold, each a copy of an input hit with the same dish. -/
lemma refine_ok_mem (cos : Vec → Vec → ℚ) (embed : String → Vec)
    (hits : List DishHit) (pos : List String) (embs : List (String × Vec))
    (res : List DishHit)
    (h : FaissService.refine_with_centroid cos embed hits pos embs = .ok res) :
    ∀ x ∈ res, (∃ s, x.centroid_similarity = some s ∧ 3/10 < s)
      ∧ ∃ h0, h0 ∈ hits ∧ h0.dish = x.dish := by
  simp only [FaissService.refine_with_centroid] at h
  cases hl : FaissService.refineLoop cos (3/10) (npMeanAxis0 (pos.map embed)) embs hits with
  | error e => rw [hl] at h; simp [Except.map] at h
  | ok r0 =>
    rw [hl] at h
    simp only [Except.map, Except.ok.injEq] at h
    subst h
    intro x hx
    exact refineLoop_ok_mem cos (3/10) _ embs hits r0 hl x (List.mem_mergeSort.mp hx)

/-- The re-ranked list is sorted by descending centroid similarity. -/
lemma refine_ok_sorted (cos : Vec → Vec → ℚ) (embed : String → Vec)
    (hits : List DishHit) (pos : List String) (embs : List (String × Vec))
    (res : List DishHit)
    (h : FaissService.refine_with_centroid cos embed hits pos embs = .ok res) :
    List.Pairwise (fun a b => FaissService.simKey b ≤ FaissService.simKey a) res := by
  simp only [FaissService.refine_with_centroid] at h
  cases hl : FaissService.refineLoop cos (3/10) (npMeanAxis0 (pos.map embed)) embs hits with
  | error e => rw [hl] at h; simp [Except.map] at h
  | ok r0 =>
    rw [hl] at h
    simp only [Except.map, Except.ok.injEq] at h
    subst h
    have htrans : ∀ a b c : DishHit,
        (fun a b => decide (FaissService.simKey b ≤ FaissService.simKey a)) a b = true →
        (fun a b => decide (FaissService.simKey b ≤ FaissService.simKey a)) b c = true →
        (fun a b => decide (FaissService.simKey b ≤ FaissService.simKey a)) a c = true := by
      intro a b c hab hbc
      exact decide_eq_true (le_trans (of_decide_eq_true hbc) (of_decide_eq_true hab))
    have htotal : ∀ a b : DishHit,
        ((fun a b => decide (FaissService.simKey b ≤ FaissService.simKey a)) a b
          || (fun a b => decide (FaissService.simKey b ≤ FaissService.simKey a)) b a) = true := by
      intro a b
      rcases le_total (FaissService.simKey b) (FaissService.simKey a) with hle | hle <;> simp [hle]
    have hs := @List.sorted_mergeSort DishHit
      (fun a b => decide (FaissService.simKey b ≤ FaissService.simKey a)) htrans htotal r0
    exact hs.imp (fun hab => of_decide_eq_true hab)

/-- Packaging step: when the refine loop keeps exactly one hit the
whole re-ranker returns that one-element list. -/
lemma refine_single (cos : Vec → Vec → ℚ) (embed : String → Vec)
    (hits : List DishHit) (pos : List String) (embs : List (String × Vec)) (x : DishHit)
    (h : FaissService.refineLoop cos (3/10) (npMeanAxis0 (pos.map embed)) embs hits = .ok [x]) :
    FaissService.refine_with_centroid cos embed hits pos embs = .ok [x] := by
  simp only [FaissService.refine_with_centroid, h, Except.map, List.mergeSort_singleton]

/-- Writing one key leaves every other key unchanged. -/
lemma dictGet_insert_ne (k k2 : String) (v : α) (d : List (String × α))
    (hne : k2 ≠ k) : dictGet k2 (dictInsert k v d) = dictGet k2 d := by
  have hkk : ¬ k = k2 := fun h => hne h.symm
  induction d with
  | nil => simp [dictGet, dictInsert, hkk]
  | cons e t ih =>
    obtain ⟨a, b⟩ := e
    by_cases he : a = k
    · subst he
      simp [dictGet, dictInsert, hkk]
    · by_cases he2 : a = k2
      · subst he2
        simp [dictGet, dictInsert, he, hne]
      · simp [dictGet, dictInsert, he, he2, ih]

/-- Sub-queries not in the remaining work list are untouched by the
menu loop. -/
lemma menuGo_get_not_mem (retrieve : String → Except String (List DishHit))
    (convert : DishHit → Except String RetrievalService.DishData)
    (apply_filters validate :
      String → List RetrievalService.DishData → Except String (List RetrievalService.DishData))
    (q : String) :
    ∀ (l : List String) (res : List (String × List RetrievalService.DishData)), q ∉ l →
      dictGet q (RetrievalService.menuGo retrieve convert apply_filters validate l res)
        = dictGet q res := by
  intro l
  induction l with
  | nil => intro res _; simp [RetrievalService.menuGo]
  | cons q0 t ih =>
    intro res hq
    have hq0 : q ≠ q0 := fun h => hq (h ▸ List.mem_cons_self _ _)
    have hqt : q ∉ t := fun h => hq (List.mem_cons_of_mem _ h)
    simp only [RetrievalService.menuGo]
    rw [ih _ hqt, dictGet_insert_ne _ _ _ _ hq0]

/-- Every sub-query in the work list ends with an entry that only
depends on that sub-query (the recovered pipeline value). -/
lemma menuGo_get_mem (retrieve : String → Except String (List DishHit))
    (convert : DishHit → Except String RetrievalService.DishData)
    (apply_filters validate :
      String → List RetrievalService.DishData → Except String (List RetrievalService.DishData))
    (q : String) :
    ∀ (l : List String) (res : List (String × List RetrievalService.DishData)), q ∈ l →
      dictGet q (RetrievalService.menuGo retrieve convert apply_filters validate l res)
        = some (RetrievalService.recover
            (RetrievalService.menu_pipeline retrieve convert apply_filters validate q)) := by
  intro l
  induction l with
  | nil => intro res hq; simp at hq
  | cons q0 t ih =>
    intro res hq
    by_cases hqt : q ∈ t
    · simp only [RetrievalService.menuGo]
      exact ih _ hqt
    · have hq0 : q = q0 := by
        rcases List.mem_cons.mp hq with h | h
        · exact h
        · exact absurd h hqt
      subst hq0
      simp only [RetrievalService.menuGo]
      rw [menuGo_get_not_mem retrieve convert apply_filters validate q t _ hqt,
        dictGet_insert_self]

/-- Saving appends the state to the history of its own session. -/
lemma saveGo_get_self (s : ChatState) :
    ∀ l : List (String × List ChatState),
      dictGet s.session_id (Flow.saveGo s l)
        = some ((dictGet s.session_id l).getD [] ++ [s]) := by
  intro l
  induction l with
  | nil => simp [Flow.saveGo, dictGet]
  | cons e t ih =>
    obtain ⟨k, hist⟩ := e
    by_cases hk : k = s.session_id
    · subst hk
      simp [Flow.saveGo, dictGet]
    · simp [Flow.saveGo, dictGet, hk, ih]

/-- Saving leaves the history of every other session unchanged. -/
lemma saveGo_get_ne (s : ChatState) (sid : String) (hne : sid ≠ s.session_id) :
    ∀ l : List (String × List ChatState),
      dictGet sid (Flow.saveGo s l) = dictGet sid l := by
  have hss : ¬ s.session_id = sid := fun h => hne h.symm
  intro l
  induction l with
  | nil => simp [Flow.saveGo, dictGet, hss]
  | cons e t ih =>
    obtain ⟨k, hist⟩ := e
    by_cases hk : k = s.session_id
    · subst hk
      simp [Flow.saveGo, dictGet, hss]
    · simp [Flow.saveGo, dictGet, hk, ih]

/-- A sequence of saves never touches a session id that none of the
saved states carries. -/
lemma foldl_save_get (sid : String) :
    ∀ (saves : List ChatState) (store : Flow.StateStore),
      (∀ s ∈ saves, s.session_id ≠ sid) →
      (saves.foldl Flow.StateStore.save store).get sid = store.get sid := by
  intro saves
  induction saves with
  | nil => intro store _; simp
  | cons s t ih =>
    intro store hall
    have hs : s.session_id ≠ sid := hall s (List.mem_cons_self _ _)
    have ht : ∀ x ∈ t, x.session_id ≠ sid := fun x hx => hall x (List.mem_cons_of_mem _ hx)
    simp only [List.foldl_cons]
    rw [ih _ ht]
    exact saveGo_get_ne s sid (fun h => hs h.symm) store.sessions

/-! Claim theorems. -/

/-- C1: for every query and every set of oracle-produced
positive/negative intent terms, the list returned by
semantic_retrieve_with_negation contains no hit whose dish id appears
among the hits retrieved for any negative term: the dish-id set of
the final result is disjoint from the dish-id set of the concatenated
negative-term retrieval results. -/
theorem C1_negation_invariant (search : String → List DishHit)
    (cos : Vec → Vec → ℚ) (embed : String → Vec)
    (intents : FaissService.QueryIntents) (res : List DishHit)
    (h : FaissService.semantic_retrieve_with_negation search cos embed intents = .ok res) :
    ∀ hit ∈ res,
      hit.dish.id ∉ (intents.negative.flatMap search).map (fun n => n.dish.id) := by
  intro hit hmem
  simp only [FaissService.semantic_retrieve_with_negation] at h
  obtain ⟨-, h0, h0mem, h0dish⟩ := refine_ok_mem _ _ _ _ _ _ h hit hmem
  simp only [FaissService.neg_dedup] at h0mem
  have h0fil := dedupSeen_subset _ [] h0 h0mem
  have hmf := List.mem_filter.mp h0fil
  have hnotin := of_decide_eq_true hmf.2
  rw [← h0dish]
  exact hnotin

/-- C1 witness: scenario of spec section 8.6 — positive term pasta
retrieves both dishes, negative term meatballs retrieves the meatball
dish; the pipeline returns only Penne Arrabbiata and its id is not
among the negative-term hits. -/
theorem C1_witness :
    hitARefined.dish.id ∉ (intents1.negative.flatMap search1).map (fun n => n.dish.id) := by
  have hc : (3/10 : ℚ) < 1 := by norm_num
  have hnd : FaissService.neg_dedup (intents1.positive.flatMap search1)
      (intents1.negative.flatMap search1) = [hitA] := by rfl
  have h1 : FaissService.refineLoop cos1 (3/10)
      (npMeanAxis0 (intents1.positive.map embed1))
      ((FaissService.neg_dedup (intents1.positive.flatMap search1)
          (intents1.negative.flatMap search1)).map (fun h => (h.dish.id, h.embedding)))
      (FaissService.neg_dedup (intents1.positive.flatMap search1)
        (intents1.negative.flatMap search1)) = .ok [hitARefined] := by
    rw [hnd]
    simp [FaissService.refineLoop, npMeanAxis0, intents1, embed1, cos1, dictGet,
      hitA, dishA, hitARefined, Except.map, hc]
  have hsem : FaissService.semantic_retrieve_with_negation search1 cos1 embed1 intents1
      = .ok [hitARefined] := by
    simp only [FaissService.semantic_retrieve_with_negation]
    exact refine_single _ _ _ _ _ _ h1
  exact C1_negation_invariant search1 cos1 embed1 intents1 [hitARefined] hsem
    hitARefined (by simp)

/-- C2: the Negation and Dedup step computes exactly the reference
function (retain positive hits whose dish id is not negative, then
deduplicate by dish id keeping first occurrences in order), and the
resulting list contains no duplicate dish ids. -/
theorem C2_neg_dedup_exact (pos_hits neg_hits : List DishHit) :
    FaissService.neg_dedup pos_hits neg_hits = FaissService.neg_dedup_spec pos_hits neg_hits
    ∧ ((FaissService.neg_dedup pos_hits neg_hits).map (fun h => h.dish.id)).Nodup := by
  constructor
  · simp only [FaissService.neg_dedup, FaissService.neg_dedup_spec]
    rw [dedupSeen_eq_spec]
    congr 1
    simp
  · exact (dedupSeen_nodup _ []).1

/-- C3: every list the centroid re-ranker returns is sorted with
monotonically non-increasing centroid_similarity, every entry has the
field set, and every value is at or above the 0.30 acceptance
threshold of services/faiss_service.py. -/
theorem C3_centroid_ordering (cos : Vec → Vec → ℚ) (embed : String → Vec)
    (hits : List DishHit) (pos : List String) (embs : List (String × Vec))
    (res : List DishHit)
    (h : FaissService.refine_with_centroid cos embed hits pos embs = .ok res) :
    List.Pairwise (fun a b => FaissService.simKey b ≤ FaissService.simKey a) res
    ∧ ∀ x ∈ res, x.centroid_similarity ≠ none ∧ 3/10 ≤ FaissService.simKey x := by
  refine ⟨refine_ok_sorted _ _ _ _ _ _ h, ?_⟩
  intro x hx
  obtain ⟨⟨s, hs, hlt⟩, -⟩ := refine_ok_mem _ _ _ _ _ _ h x hx
  refine ⟨by simp [hs], ?_⟩
  rw [FaissService.simKey, hs]
  exact le_of_lt hlt

/-- C3 witness: the re-ranker keeps the single matching hit of the
scenario, its similarity is set, at least 0.30, and the one-element
list is trivially sorted. -/
theorem C3_witness :
    List.Pairwise (fun a b => FaissService.simKey b ≤ FaissService.simKey a) [hitARefined]
    ∧ (hitARefined.centroid_similarity ≠ none
        ∧ 3/10 ≤ FaissService.simKey hitARefined) := by
  have h : FaissService.refine_with_centroid cos1 embed1 [hitA] ["pasta"]
      [("dish_2", [1, 0])] = .ok [hitARefined] := by
    apply refine_single
    have hc : (3/10 : ℚ) < 1 := by norm_num
    simp [FaissService.refineLoop, npMeanAxis0, embed1, cos1, dictGet,
      hitA, dishA, hitARefined, Except.map, hc]
  exact ⟨(C3_centroid_ordering cos1 embed1 [hitA] ["pasta"] [("dish_2", [1, 0])]
      [hitARefined] h).1,
    (C3_centroid_ordering cos1 embed1 [hitA] ["pasta"] [("dish_2", [1, 0])]
      [hitARefined] h).2 hitARefined (by simp)⟩

/-- C4: with zero positive intent terms the services revision of
refine_with_centroid does compute the mean of an empty set (NaN
centroid) and raises as soon as a hit embedding is found, instead of
returning the input unchanged; the guarded revision in
utils/faiss_index.py returns the input unchanged as the spec
requires. -/
theorem C4_empty_positive_mean_error :
    FaissService.refine_with_centroid cos1 embed1 [hitA] [] [("dish_2", [1, 0])]
      = .error "ValueError: Incompatible dimension for X and Y matrices"
    ∧ FaissIndexUtil.refine_with_centroid cos1 embed1 [hitA] [] [("dish_2", [1, 0])]
      = .ok [hitA] := by
  constructor
  · rfl
  · rfl

/-- C5: whenever the oracle response fails to parse as JSON, the
Intent Expander returns exactly the object with positive set to the
singleton of the original sub-query and negative empty, raising
nothing. -/
theorem C5_fallback_determinism (parse : String → Option Json)
    (query response : String) (h : parse response = none) :
    FaissService.extract_query_intent parse query response
      = Json.obj [("positive", Json.arr [Json.str query]), ("negative", Json.arr [])] := by
  simp [FaissService.extract_query_intent, h]

/-- C5 witness: a parser that fails on a concrete response yields the
fallback for the concrete sub-query. -/
theorem C5_witness :
    FaissService.extract_query_intent parseNone "pasta dishes" "not valid json"
      = Json.obj [("positive", Json.arr [Json.str "pasta dishes"]),
                  ("negative", Json.arr [])] :=
  C5_fallback_determinism parseNone "pasta dishes" "not valid json" rfl

/-- C6: on a non-JSON oracle response the Query Decomposer does not
produce a single irrelevant intent carrying the original user query:
its fallback flattens to one intent with type equal to the literal
intents and query equal to the literal irrelevant.  Moreover a
JSON-parseable response of unexpected shape (here a top-level array)
raises instead of being normalized. -/
theorem C6_fallback_shape_bug :
    IntentService.extract_query_intent parseNone "I want pizza" "not valid json"
        = .ok [⟨"intents", Json.str "irrelevant"⟩]
    ∧ IntentService.extract_query_intent parseNone "I want pizza" "not valid json"
        ≠ .ok [⟨"irrelevant", Json.str "I want pizza"⟩]
    ∧ IntentService.extract_query_intent (fun _ => some (Json.arr [Json.str "hi"]))
        "I want pizza" "whatever"
        = .error "AttributeError: object has no attribute items" := by
  refine ⟨rfl, ?_, rfl⟩
  intro h
  rw [show IntentService.extract_query_intent parseNone "I want pizza" "not valid json"
      = Except.ok [⟨"intents", Json.str "irrelevant"⟩] from rfl] at h
  simp [IntentService.IntentItem.mk.injEq] at h

/-- C7 counterexample: in the dish_info bucket an oracle exception on
the first sub-query is not caught: get_dish_info aborts with the
error and the second sub-query receives no result entry, refuting the
claim that a failure in one sub-query never stops the others. -/
theorem C7_counterexample :
    DishInfoService.get_dish_info deriveErr generalOk foodOk
      ["carbs in pasta", "carbs in pizza"] = .error "timeout" := rfl

/-- C7 amended: failure isolation holds only for the menu_search
bucket — get_menu_items gives every sub-query its own entry, the
recovered value of its pipeline, and a failed pipeline recovers to
the empty list — while in get_dish_info an exception aborts the whole
dish_info bucket. -/
theorem C7_amended :
    (∀ (retrieve : String → Except String (List DishHit))
        (convert : DishHit → Except String RetrievalService.DishData)
        (apply_filters validate :
          String → List RetrievalService.DishData → Except String (List RetrievalService.DishData))
        (queries : List String) (q : String), q ∈ queries →
        dictGet q (RetrievalService.get_menu_items retrieve convert apply_filters validate queries)
          = some (RetrievalService.recover
              (RetrievalService.menu_pipeline retrieve convert apply_filters validate q)))
    ∧ (∀ e : String, RetrievalService.recover (.error e) = [])
    ∧ (∀ (derive : String → Except String (Option String))
        (handle_general food_path : String → Except String Json) (e : String)
        (q : String) (rest : List String), derive (DishInfoService.pyStrip q) = .error e →
        DishInfoService.get_dish_info derive handle_general food_path (q :: rest)
          = .error e) := by
  refine ⟨?_, fun _ => rfl, ?_⟩
  · intro retrieve convert apply_filters validate queries q hq
    exact menuGo_get_mem retrieve convert apply_filters validate q queries [] hq
  · intro derive handle_general food_path e q rest hd
    simp [DishInfoService.get_dish_info, DishInfoService.infoGo, hd]

/-- C7 amended witness: with a timing-out retrieval stage both
menu_search sub-queries still receive their own (recovered, empty)
entry, while a timing-out derive stage aborts the dish_info bucket. -/
theorem C7_amended_witness :
    dictGet "find pasta"
        (RetrievalService.get_menu_items retrieveErr convertOk filtersOk validateOk
          ["find pasta", "find pizza"])
      = some (RetrievalService.recover
          (RetrievalService.menu_pipeline retrieveErr convertOk filtersOk validateOk "find pasta"))
    ∧ RetrievalService.recover (.error "timeout") = []
    ∧ DishInfoService.get_dish_info deriveErr generalOk foodOk
        ["carbs in pasta", "carbs in pizza"] = .error "timeout" :=
  ⟨C7_amended.1 retrieveErr convertOk filtersOk validateOk ["find pasta", "find pizza"]
      "find pasta" (by simp),
   C7_amended.2.1 "timeout",
   C7_amended.2.2 deriveErr generalOk foodOk "timeout" "carbs in pasta"
      ["carbs in pizza"] rfl⟩

/-- C8 counterexample: a state whose single sub-query entry carries an
empty result list still yields overall status success (the source
tests only that the responses list is non-empty), refuting the claim
that such a response has status failed. -/
theorem C8_counterexample :
    ResponseSynthesizer.format_final_response convertDishOk convertInfoOk stateEmptyResult
        = .ok frEmptyResult
    ∧ frEmptyResult.responses
        = [⟨"find me pasta", "menu_search", ResponseSynthesizer.RespResult.menu []⟩]
    ∧ frEmptyResult.status = "success" :=
  ⟨rfl, rfl, rfl⟩

/-- C8 amended: the overall status is success exactly when the
responses list is non-empty, i.e. when at least one sub-query entry
exists, regardless of whether any entry carries a non-empty result. -/
theorem C8_amended
    (convertDish : RetrievalService.DishData → Except String ResponseSynthesizer.DishResult)
    (convertInfo : Json → Except String ResponseSynthesizer.InfoResult)
    (state : ChatState) (fr : ResponseSynthesizer.FinalResponse)
    (h : ResponseSynthesizer.format_final_response convertDish convertInfo state = .ok fr) :
    fr.status = "success" ↔ fr.responses ≠ [] := by
  unfold ResponseSynthesizer.format_final_response at h
  cases hm : ResponseSynthesizer.menuResponses convertDish state with
  | error e => rw [hm] at h; simp at h
  | ok menuRs =>
    rw [hm] at h
    cases hi : ResponseSynthesizer.infoResponses convertInfo state with
    | error e => rw [hi] at h; simp at h
    | ok infoRs =>
      rw [hi] at h
      simp only [Except.ok.injEq] at h
      subst h
      by_cases he :
        (menuRs ++ infoRs ++ ResponseSynthesizer.gibberishResponses state).isEmpty
      · have hnil := List.isEmpty_iff.mp he
        simp [he, hnil]
      · have hne : menuRs ++ infoRs ++ ResponseSynthesizer.gibberishResponses state ≠ [] := by
          intro hc
          rw [hc] at he
          simp at he
        simp [he, hne]

/-- C8 amended witness: the all-empty-results state produces status
success and a non-empty responses list. -/
theorem C8_witness :
    frEmptyResult.status = "success" ↔ frEmptyResult.responses ≠ [] :=
  C8_amended convertDishOk convertInfoOk stateEmptyResult frEmptyResult rfl

/-- C9: a decomposed sub-query in the irrelevant bucket produces no
entry at all in the final response (the synthesizer reads the
gibberish key, which no producer writes), so the number of entries is
smaller than the number of sub-queries and the irrelevant sub-query
is dropped silently instead of being surfaced as a
could-not-understand message. -/
theorem C9_irrelevant_dropped :
    dictGet "irrelevant" (stateIrrelevant.query_parts.getD []) = some ["Tell me a joke"]
    ∧ ResponseSynthesizer.format_final_response convertDishOk convertInfoOk stateIrrelevant
        = .ok frIrrelevant
    ∧ frIrrelevant.responses = []
    ∧ frIrrelevant.status = "failed" :=
  ⟨rfl, rfl, rfl, rfl⟩

/-- C10: StateStore.save is append-only with a frame guarantee — the
history of the saved state session id grows by exactly the new state
at its end, every other session history is unchanged, and get on a
session id never written returns none. -/
theorem C10_state_store_frame :
    (∀ (store : Flow.StateStore) (s : ChatState),
        (store.save s).get s.session_id = some ((store.get s.session_id).getD [] ++ [s]))
    ∧ (∀ (store : Flow.StateStore) (s : ChatState) (sid : String), sid ≠ s.session_id →
        (store.save s).get sid = store.get sid)
    ∧ (∀ (saves : List ChatState) (sid : String), (∀ s ∈ saves, s.session_id ≠ sid) →
        (saves.foldl Flow.StateStore.save ⟨[]⟩).get sid = none) := by
  refine ⟨?_, ?_, ?_⟩
  · intro store s
    exact saveGo_get_self s store.sessions
  · intro store s sid hne
    exact saveGo_get_ne s sid hne store.sessions
  · intro saves sid hall
    rw [foldl_save_get sid saves ⟨[]⟩ hall]
    rfl

/-- C10 witness: saving one snapshot into the empty store creates its
singleton history, leaves another session id unread, and an unused
session id still reads none. -/
theorem C10_witness :
    ((Flow.StateStore.mk []).save stateSnap).get stateSnap.session_id
        = some ((((Flow.StateStore.mk []).get stateSnap.session_id).getD []) ++ [stateSnap])
    ∧ ((Flow.StateStore.mk []).save stateSnap).get "sess_other"
        = (Flow.StateStore.mk []).get "sess_other"
    ∧ (([stateSnap] : List ChatState).foldl Flow.StateStore.save ⟨[]⟩).get "sess_unused"
        = none :=
  ⟨C10_state_store_frame.1 ⟨[]⟩ stateSnap,
   C10_state_store_frame.2.1 ⟨[]⟩ stateSnap "sess_other" (by simp [stateSnap]),
   C10_state_store_frame.2.2 [stateSnap] "sess_unused"
     (by intro s hs; simp only [List.mem_singleton] at hs; subst hs; simp [stateSnap])⟩

end SafeBites
